import Mathlib

/-!
A verification development for the Oppia learner-group backend fragment:
`core/constants.py` (the constants loader) and
`core/controllers/learner_group.py` (the learner-group HTTP handlers).

The Python code is shallowly embedded: pure helpers become Lean functions,
handlers become functions from an abstract service environment and the
normalized request payload to a result together with the trace of domain
service calls they issue.  External collaborators (the domain service
layer, the filesystem, `json.loads`) are parameters of the embedding.
-/

namespace Oppia

/-! ## JSON values (the output type of `json.loads` for our purposes) -/

/-- A JSON value, as produced by Python's `json.loads`. -/
inductive JsonVal where
  | null
  | bool (b : Bool)
  | num (n : Int)
  | str (s : String)
  | arr (l : List JsonVal)
  | obj (l : List (String × JsonVal))
deriving Repr

/-! ## `core/constants.py` : `remove_comments`

`remove_comments(text)` is `re.sub(r'  //.*\n', r'', text)`.  Python `re`
scans left to right; at a position the pattern matches iff the text there
starts with two spaces and `//` and a newline occurs later on the same
line (`.` never matches a newline, so `.*\n` extends exactly to the first
newline after the `//`).  The whole match, newline included, is removed
and scanning resumes after it. -/

/-- Drops characters up to and including the first newline (the span the
`.*\n` part of the pattern consumes). -/
def dropThroughNewline (l : List Char) : List Char :=
  (l.dropWhile (fun c => c != '\n')).drop 1

/-- The scan of `re.sub(r'  //.*\n', r'', text)`, with explicit fuel.
Every step either emits or removes at least one character of the input,
so fuel equal to the input length (as supplied by `remove_comments`)
never runs out. -/
def removeCommentsAux : Nat → List Char → List Char
  | _, [] => []
  | 0, l => l
  | fuel + 1, ' ' :: ' ' :: '/' :: '/' :: rest =>
    if rest.contains '\n' then removeCommentsAux fuel (dropThroughNewline rest)
    else ' ' :: removeCommentsAux fuel (' ' :: '/' :: '/' :: rest)
  | fuel + 1, c :: cs => c :: removeCommentsAux fuel cs

/-- Python `re.sub(r'  //.*\n', r'', text)`, on the character list of `text`. -/
def remove_comments (text : List Char) : List Char :=
  removeCommentsAux text.length text

/-! ## `core/constants.py` : `parse_json_from_ts`

`json_start = text.find('{\n')`, `json_end = text.rfind('}') + 1`, then
`json.loads(text[json_start:json_end])`.  Python `find`/`rfind` return
`-1` when absent, and slicing interprets negative indices from the end,
so the embedding keeps the `Int` arithmetic and Python slice semantics. -/

/-- Index of the first occurrence of the two-character pattern
`'{'` immediately followed by `'\n'` (Python `text.find('{\n')`,
`none` for `-1`). -/
def findBraceNl : List Char → Option Nat
  | [] => none
  | c :: rest =>
    if c = '{' ∧ rest.head? = some '\n' then some 0
    else (findBraceNl rest).map (· + 1)

/-- Index of the last occurrence of `'}'` (Python `text.rfind('}')`,
`none` for `-1`). -/
def rfindBrace : List Char → Option Nat
  | [] => none
  | c :: rest =>
    match rfindBrace rest with
    | some i => some (i + 1)
    | none => if c = '}' then some 0 else none

/-- Python `str.find` result as an `Int` (`-1` when absent). -/
def pyFindBraceNl (l : List Char) : Int :=
  match findBraceNl l with
  | some i => (i : Int)
  | none => -1

/-- Python `str.rfind` result as an `Int` (`-1` when absent). -/
def pyRfindBrace (l : List Char) : Int :=
  match rfindBrace l with
  | some i => (i : Int)
  | none => -1

/-- Clamps a Python slice bound to an actual index: negative values count
from the end, and the result is clamped into `[0, len]`. -/
def pySliceIndex (len : Nat) (i : Int) : Nat :=
  if i < 0 then ((len : Int) + i).toNat else min i.toNat len

/-- Python slice `l[a:b]` with full Python index semantics. -/
def pySlice (l : List Char) (a b : Int) : List Char :=
  let a' := pySliceIndex l.length a
  let b' := pySliceIndex l.length b
  ((l.drop a').take (b' - a'))

/-- The string `parse_json_from_ts` hands to `json.loads`:
comment-stripped text, sliced from `find('{\n')` to `rfind('}') + 1`. -/
def parse_json_from_ts_arg (ts_file_contents : List Char) : List Char :=
  let text_without_comments := remove_comments ts_file_contents
  let json_start := pyFindBraceNl text_without_comments
  let json_end := pyRfindBrace text_without_comments + 1
  pySlice text_without_comments json_start json_end

/-- Embedding of `parse_json_from_ts`, parameterized by the behaviour of `json.loads`
(`none` models a raised `JSONDecodeError`). -/
def parse_json_from_ts (loads : List Char → Option JsonVal)
    (ts_file_contents : List Char) : Option JsonVal :=
  loads (parse_json_from_ts_arg ts_file_contents)

/-! ## `core/constants.py` : `get_package_file_contents`

The direct filesystem read and `pkgutil.get_data` are external; the
embedding takes their outcomes as an environment.  The only exception the
code catches is `FileNotFoundError`. -/

/-- The error kind `get_package_file_contents` can raise. -/
inductive PyFileError where
  | fileNotFound
deriving Repr, DecidableEq

/-- Outcomes of the two external reads and of UTF-8 decoding, per
`(package, filepath)` pair. -/
structure FsEnv where
  /-- Result of `io.open(os.path.join(package, filepath)).read()`: contents, or a
  raised `FileNotFoundError`. -/
  direct_read : String → String → Except PyFileError String
  /-- Result of `pkgutil.get_data(package, filepath)`: bytes or `None`. -/
  get_data : String → String → Option (List Nat)
  /-- Decoding by `bytes.decode('utf-8')`. -/
  decode_utf8 : List Nat → String

/-- Embedding of `get_package_file_contents(package, filepath)`. -/
def get_package_file_contents (fs : FsEnv) (package filepath : String) :
    Except PyFileError String :=
  match fs.direct_read package filepath with
  | .ok contents => .ok contents
  | .error e =>
    match fs.get_data package filepath with
    | none => .error e
    | some file_data => .ok (fs.decode_utf8 file_data)

/-! ## `core/constants.py` : class `Constants(dict)`

`__setattr__(name, value)` performs `self[name] = value`, and
`__getattr__(name)` returns `self[name]`.  A Python dict built by
`json.loads` is a finite map; it is embedded as its association list of
items (keys distinct in insertion order). -/

/-- A `Constants` table: the items of the underlying dict. -/
abbrev Constants := List (String × JsonVal)

/-- Dict item read `self[name]` (`none` models a raised `KeyError`). -/
def Constants.getitem (c : Constants) (name : String) : Option JsonVal :=
  (c.find? (fun p => p.1 = name)).map Prod.snd

/-- Dict item write `self[name] = value`. -/
def Constants.setitem (c : Constants) (name : String) (value : JsonVal) :
    Constants :=
  if c.any (fun p => p.1 = name) then
    c.map (fun p => if p.1 = name then (name, value) else p)
  else
    c ++ [(name, value)]

/-- Method `Constants.__getattr__`: `return self[name]`. -/
def Constants.getattr (c : Constants) (name : String) : Option JsonVal :=
  Constants.getitem c name

/-- Method `Constants.__setattr__`: `self[name] = value`. -/
def Constants.setattr (c : Constants) (name : String) (value : JsonVal) :
    Constants :=
  Constants.setitem c name value

/-- Constructor call `Constants(parsed)` where `parsed` is the dict `json.loads` produced
from the embedded JSON object: the dict items are copied. -/
def Constants.ofParsedObj (items : List (String × JsonVal)) : Constants :=
  items

/-! ## `core/controllers/learner_group.py` : data model

The `LearnerGroup` domain object is external (defined in the unseen
domain layer); the handlers only read the fields below.  User ids,
usernames, story ids and subtopic page ids are strings; the opaque
progress dicts returned by the progress services are abstracted as
strings as well. -/

/-- The fields of a learner group that the handlers read. -/
structure LearnerGroup where
  group_id : String
  title : String
  description : String
  facilitator_user_ids : List String
  student_user_ids : List String
  invited_student_user_ids : List String
  subtopic_page_ids : List String
  story_ids : List String
deriving Repr, DecidableEq

/-- The fields of `user_services.get_user_settings_from_username` results
that `LearnerGroupSearchStudentHandler` reads. -/
structure UserSettings where
  user_id : String
  username : String
  profile_picture_data_url : String
deriving Repr, DecidableEq

/-- A call into the domain services that mutates state or fetches
per-student progress, recorded in the order the handler issues it. -/
inductive ServiceCall where
  | createLearnerGroup (group_id title description : String)
      (facilitator_user_ids invited_student_ids subtopic_page_ids
        story_ids : List String)
  | updateLearnerGroup (group_id title description : String)
      (facilitator_user_ids student_ids invited_student_ids
        subtopic_page_ids story_ids : List String)
  | removeLearnerGroup (group_id : String)
  | canMultiStudentsShareProgress (student_user_ids : List String)
      (group_id : String)
  | getMultiUsersProgressInStories (user_ids story_ids : List String)
  | getMultiUsersSubtopicPagesProgress (user_ids subtopic_page_ids : List String)
deriving Repr, DecidableEq

/-- Exceptions a handler request can end in.  The first three are raised
explicitly in `learner_group.py`; `notFound` is the framework's
not-found exception (`NotFoundException`, never raised in this file);
`indexError` is Python's built-in `IndexError` escaping a list index. -/
inductive HandlerError where
  | unauthorizedUser (msg : String)
  | invalidInput (msg : String)
  | pageNotFound
  | notFound
  | indexError
deriving Repr, DecidableEq

/-- Whether an error is the framework's not-found exception. -/
def HandlerError.isNotFound : HandlerError → Bool
  | .notFound => true
  | _ => false

/-- The request context plus the behaviour of every external service the
learner-group handlers call.  Dict results of the progress services are
embedded as total maps from user id. -/
structure Env where
  /-- Value of `self.user_id` for the authenticated caller. -/
  user_id : String
  /-- Value of `self.username` for the authenticated caller. -/
  username : String
  /-- Behaviour of `user_services.get_multi_user_ids_from_usernames`. -/
  get_multi_user_ids_from_usernames : List String → List String
  /-- Behaviour of `user_services.get_usernames`. -/
  get_usernames : List String → List String
  /-- Behaviour of `learner_group_fetchers.get_new_learner_group_id()`. -/
  get_new_learner_group_id : String
  /-- Behaviour of `learner_group_services.create_learner_group(...)`: the persisted
  group the service returns. -/
  create_learner_group : String → String → String → List String →
    List String → List String → List String → LearnerGroup
  /-- Behaviour of `learner_group_services.is_user_facilitator`. -/
  is_user_facilitator : String → String → Bool
  /-- Behaviour of `learner_group_services.update_learner_group(...)`. -/
  update_learner_group : String → String → String → List String →
    List String → List String → List String → List String → LearnerGroup
  /-- Behaviour of `learner_group_fetchers.get_learner_group_by_id`. -/
  get_learner_group_by_id : String → Option LearnerGroup
  /-- Behaviour of `learner_group_fetchers.can_multi_students_share_progress`. -/
  can_multi_students_share_progress : List String → String → List Bool
  /-- Behaviour of `story_fetchers.get_multi_users_progress_in_stories`, as the map
  backing the returned dict. -/
  get_multi_users_progress_in_stories : List String → List String →
    String → List String
  /-- Behaviour of `subtopic_page_services.get_multi_users_subtopic_pages_progress`. -/
  get_multi_users_subtopic_pages_progress : List String → List String →
    String → List String
  /-- Behaviour of `user_services.get_user_settings_from_username`. -/
  get_user_settings_from_username : String → Option UserSettings
  /-- Behaviour of `learner_group_services.can_user_be_invited`. -/
  can_user_be_invited : String → String → String → Bool × String

/-- The normalized payload of a create/update request, after schema
validation (`LEARNER_GROUP_SCHEMA`). -/
structure LearnerGroupPayload where
  group_title : String
  group_description : String
  student_usernames : List String
  invited_student_usernames : List String
  subtopic_page_ids : List String
  story_ids : List String
deriving Repr, DecidableEq

/-- The JSON body rendered by the create, update and facilitator-view
handlers. -/
structure GroupResponse where
  id : String
  title : String
  description : String
  facilitator_usernames : List String
  student_usernames : List String
  invited_student_usernames : List String
  subtopic_page_ids : List String
  story_ids : List String
deriving Repr, DecidableEq

/-- The `render_json` dict for one group, shared by create and update. -/
def renderGroup (env : Env) (g : LearnerGroup) : GroupResponse :=
  { id := g.group_id
    title := g.title
    description := g.description
    facilitator_usernames := env.get_usernames g.facilitator_user_ids
    student_usernames := env.get_usernames g.student_user_ids
    invited_student_usernames := env.get_usernames g.invited_student_user_ids
    subtopic_page_ids := g.subtopic_page_ids
    story_ids := g.story_ids }

/-! ## `CreateLearnerGroupHandler.post` -/

/-- Handler `CreateLearnerGroupHandler.post`: resolves the invited usernames to
ids, obtains a fresh group id, persists via
`learner_group_services.create_learner_group` with `[self.user_id]` as
the facilitator list, and renders the group.  Note the handler never
reads `student_usernames` from the payload. -/
def createLearnerGroupPost (env : Env) (p : LearnerGroupPayload) :
    Except HandlerError GroupResponse × List ServiceCall :=
  let invited_student_ids :=
    env.get_multi_user_ids_from_usernames p.invited_student_usernames
  let new_learner_grp_id := env.get_new_learner_group_id
  let learner_group :=
    env.create_learner_group new_learner_grp_id p.group_title
      p.group_description [env.user_id] invited_student_ids
      p.subtopic_page_ids p.story_ids
  (.ok (renderGroup env learner_group),
   [.createLearnerGroup new_learner_grp_id p.group_title
      p.group_description [env.user_id] invited_student_ids
      p.subtopic_page_ids p.story_ids])

/-! ## `LearnerGroupHandler.put` and `.delete` -/

/-- Handler `LearnerGroupHandler.put`: checks that the caller facilitates the
group before any mutation, then resolves both username lists and
replaces the group via `learner_group_services.update_learner_group`
with `[self.user_id]` as the facilitator list. -/
def learnerGroupPut (env : Env) (learner_group_id : String)
    (p : LearnerGroupPayload) :
    Except HandlerError GroupResponse × List ServiceCall :=
  if ¬ env.is_user_facilitator env.user_id learner_group_id then
    (.error (.unauthorizedUser
      "You are not a facilitator of this learner group."), [])
  else
    let student_ids :=
      env.get_multi_user_ids_from_usernames p.student_usernames
    let invited_student_ids :=
      env.get_multi_user_ids_from_usernames p.invited_student_usernames
    let learner_group :=
      env.update_learner_group learner_group_id p.group_title
        p.group_description [env.user_id] student_ids invited_student_ids
        p.subtopic_page_ids p.story_ids
    (.ok (renderGroup env learner_group),
     [.updateLearnerGroup learner_group_id p.group_title
        p.group_description [env.user_id] student_ids invited_student_ids
        p.subtopic_page_ids p.story_ids])

/-- Handler `LearnerGroupHandler.delete`: facilitator check, then removal. -/
def learnerGroupDelete (env : Env) (learner_group_id : String) :
    Except HandlerError Bool × List ServiceCall :=
  if ¬ env.is_user_facilitator env.user_id learner_group_id then
    (.error (.unauthorizedUser
      ("You do not have the rights to delete this learner group " ++
       "as you are not its facilitator.")), [])
  else
    (.ok true, [.removeLearnerGroup learner_group_id])

/-! ## `LearnerGroupStudentProgressHandler.get`

The Python loops index `progress_sharing_permissions[i]` and
`student_usernames[i]` while iterating over `student_user_ids`, so a
shorter permissions or usernames list raises `IndexError`; the embedding
returns `none` from the loop helpers in exactly those cases. -/

/-- One entry of the rendered `students_progress` list. -/
structure StudentProgress where
  username : String
  progress_sharing_is_turned_on : Bool
  stories_progress : List String
  subtopic_pages_progress : List String
deriving Repr, DecidableEq

/-- The loop building `students_with_progress_sharing_on`: the user ids
whose permission flag is set, `none` on `IndexError`. -/
def studentsWithSharingOn : List String → List Bool → Option (List String)
  | [], _ => some []
  | _ :: _, [] => none
  | u :: us, b :: bs =>
    (studentsWithSharingOn us bs).map (fun r => if b then u :: r else r)

/-- The loop building `all_students_progress`, `none` on `IndexError`.
Arguments: user ids, usernames, permissions, and the two progress maps. -/
def allStudentsProgress : List String → List String → List Bool →
    (String → List String) → (String → List String) →
    Option (List StudentProgress)
  | [], _, _, _, _ => some []
  | _ :: _, [], _, _, _ => none
  | _ :: _, _ :: _, [], _, _ => none
  | u :: us, n :: ns, b :: bs, storiesP, subtopicsP =>
    (allStudentsProgress us ns bs storiesP subtopicsP).map (fun rest =>
      (if b then
        { username := n
          progress_sharing_is_turned_on := true
          stories_progress := storiesP u
          subtopic_pages_progress := subtopicsP u }
       else
        { username := n
          progress_sharing_is_turned_on := false
          stories_progress := []
          subtopic_pages_progress := [] }) :: rest)

/-- The JSON body of the progress handler. -/
structure ProgressResponse where
  students_progress : List StudentProgress
deriving Repr, DecidableEq

/-- Handler `LearnerGroupStudentProgressHandler.get`. -/
def studentProgressGet (env : Env) (learner_group_id : String)
    (student_usernames : List String) :
    Except HandlerError ProgressResponse × List ServiceCall :=
  let student_user_ids :=
    env.get_multi_user_ids_from_usernames student_usernames
  match env.get_learner_group_by_id learner_group_id with
  | none => (.error (.invalidInput "No such learner group exists."), [])
  | some learner_group =>
    let progress_sharing_permissions :=
      env.can_multi_students_share_progress student_user_ids
        learner_group_id
    match studentsWithSharingOn student_user_ids
        progress_sharing_permissions with
    | none =>
      (.error .indexError,
       [.canMultiStudentsShareProgress student_user_ids learner_group_id])
    | some students_with_progress_sharing_on =>
      let stories_progresses :=
        env.get_multi_users_progress_in_stories
          students_with_progress_sharing_on learner_group.story_ids
      let subtopic_pages_progresses :=
        env.get_multi_users_subtopic_pages_progress
          students_with_progress_sharing_on learner_group.subtopic_page_ids
      let trace : List ServiceCall :=
        [.canMultiStudentsShareProgress student_user_ids learner_group_id,
         .getMultiUsersProgressInStories students_with_progress_sharing_on
           learner_group.story_ids,
         .getMultiUsersSubtopicPagesProgress
           students_with_progress_sharing_on
           learner_group.subtopic_page_ids]
      match allStudentsProgress student_user_ids student_usernames
          progress_sharing_permissions stories_progresses
          subtopic_pages_progresses with
      | none => (.error .indexError, trace)
      | some all_students_progress =>
        (.ok { students_progress := all_students_progress }, trace)

/-! ## `LearnerGroupSearchStudentHandler.get` -/

/-- The JSON body of the student-search handler. -/
structure SearchStudentResponse where
  username : String
  profile_picture_data_url : String
  error : String
deriving Repr, DecidableEq

/-- Handler `LearnerGroupSearchStudentHandler.get`: all failure paths are
rendered as data in a success response. -/
def searchStudentGet (env : Env) (username learner_group_id : String) :
    Except HandlerError SearchStudentResponse :=
  match env.get_user_settings_from_username username with
  | none =>
    .ok { username := username
          profile_picture_data_url := ""
          error := "User with username " ++ username ++ " does not exist." }
  | some user_settings =>
    if env.username.toLower = username.toLower then
      .ok { username := user_settings.username
            profile_picture_data_url := ""
            error := "You cannot invite yourself to the group" }
    else
      match env.can_user_be_invited user_settings.user_id
          user_settings.username learner_group_id with
      | (valid_invitation, error) =>
        if ¬ valid_invitation then
          .ok { username := user_settings.username
                profile_picture_data_url := ""
                error := error }
        else
          .ok { username := user_settings.username
                profile_picture_data_url :=
                  user_settings.profile_picture_data_url
                error := "" }

/-! ## Specification-side definitions

These follow the words of the specification, to be compared with the
embedded code above. -/

/-- Holds when `i` is the first occurrence in `t` of a `'{'` immediately followed
by a newline (the spec's description of where the parsed substring
starts). -/
abbrev isFirstBraceNlAt (t : List Char) (i : Nat) : Prop :=
  t[i]? = some '{' ∧ t[i + 1]? = some '\n' ∧
    ∀ k, k < i → ¬(t[k]? = some '{' ∧ t[k + 1]? = some '\n')

/-- Holds when `j` is the position of the last `'}'` in `t` (the spec's description
of where the parsed substring ends, inclusively). -/
abbrev isLastBraceAt (t : List Char) (j : Nat) : Prop :=
  t[j]? = some '}' ∧ ∀ k, k < t.length → j < k → t[k]? ≠ some '}'

/-- The facilitator-user-ids argument of a mutating service call, when
the call takes one. -/
def facilitatorArg : ServiceCall → Option (List String)
  | .createLearnerGroup _ _ _ f _ _ _ => some f
  | .updateLearnerGroup _ _ _ f _ _ _ _ => some f
  | _ => none

/-! ## Concrete environments for witnesses and counterexamples -/

/-- A small concrete service environment: usernames resolve to ids by
adding an `id_` tag and back by stripping it, the create/update services
persist their arguments verbatim (a fresh group has no students), no
group exists, no user exists, the caller facilitates nothing. -/
def envBase : Env where
  user_id := "id_facil"
  username := "facil"
  get_multi_user_ids_from_usernames := fun us => us.map (fun u => "id_" ++ u)
  get_usernames := fun ids => ids.map (fun i => i.drop 3)
  get_new_learner_group_id := "groupNew"
  create_learner_group := fun gid t d f inv sp st =>
    { group_id := gid, title := t, description := d
      facilitator_user_ids := f, student_user_ids := []
      invited_student_user_ids := inv, subtopic_page_ids := sp
      story_ids := st }
  is_user_facilitator := fun _ _ => false
  update_learner_group := fun gid t d f s inv sp st =>
    { group_id := gid, title := t, description := d
      facilitator_user_ids := f, student_user_ids := s
      invited_student_user_ids := inv, subtopic_page_ids := sp
      story_ids := st }
  get_learner_group_by_id := fun _ => none
  can_multi_students_share_progress := fun us _ => us.map (fun _ => false)
  get_multi_users_progress_in_stories := fun _ _ _ => []
  get_multi_users_subtopic_pages_progress := fun _ _ _ => []
  get_user_settings_from_username := fun _ => none
  can_user_be_invited := fun _ _ _ => (true, "")

/-- A concrete create request: one (ignored) student username and one
invited username. -/
def payloadW : LearnerGroupPayload where
  group_title := "Group A"
  group_description := "A group"
  student_usernames := ["alice"]
  invited_student_usernames := ["bob"]
  subtopic_page_ids := ["topic1:1"]
  story_ids := ["story1"]

/-- An existing concrete learner group used by the progress-view
witnesses. -/
def groupW : LearnerGroup where
  group_id := "g1"
  title := "Group A"
  description := "A group"
  facilitator_user_ids := ["id_facil"]
  student_user_ids := ["id_alice", "id_bob"]
  invited_student_user_ids := []
  subtopic_page_ids := ["topic1:1"]
  story_ids := ["story1"]

/-- An environment where group `g1` exists, only `bob` shares progress,
and the progress services hold progress for both students. -/
def envProg : Env :=
  { envBase with
    get_learner_group_by_id := fun gid =>
      if gid = "g1" then some groupW else none
    can_multi_students_share_progress := fun us _ =>
      us.map (fun u => u = "id_bob")
    get_multi_users_progress_in_stories := fun _ _ uid =>
      if uid = "id_alice" then ["aliceStoryProg"]
      else if uid = "id_bob" then ["bobStoryProg"] else []
    get_multi_users_subtopic_pages_progress := fun _ _ uid =>
      if uid = "id_alice" then ["aliceSubtopicProg"]
      else if uid = "id_bob" then ["bobSubtopicProg"] else [] }

/-- An environment where the caller facilitates every group. -/
def envFacil : Env := { envBase with is_user_facilitator := fun _ _ => true }

/-- An environment where user `bob` exists. -/
def envUsers : Env :=
  { envBase with
    get_user_settings_from_username := fun u =>
      if u = "bob" then
        some { user_id := "id_bob", username := "bob"
               profile_picture_data_url := "data:bob" }
      else if u = "facil" then
        some { user_id := "id_facil", username := "facil"
               profile_picture_data_url := "data:facil" }
      else none }

/-- A concrete filesystem environment whose direct read fails while the
packaged-resource read yields the bytes of `"hi"`. -/
def fsW : FsEnv where
  direct_read := fun _ _ => .error .fileNotFound
  get_data := fun _ _ => some [104, 105]
  decode_utf8 := fun bs =>
    if bs = [104, 105] then "hi" else ""

/-- A concrete TS-style asset: an assignment, a line comment, an
embedded JSON object, and a trailing semicolon. -/
def tsW : List Char :=
  ['v', 'a', 'r', ' ', 'C', ' ', '=', ' ', ' ', '/', '/', ' ', 'c', '\n',
   '{', '\n', ' ', '"', 'A', '"', ':', ' ', '1', '}', ';', '\n']

/-- A concrete stand-in for `json.loads` that records the exact string
it was handed. -/
def loadsW (s : List Char) : Option JsonVal :=
  some (JsonVal.str (String.mk s))

/-! ## Theorems -/

/-- C4: a PUT to `LearnerGroupHandler` by a caller who is not a
facilitator of the target group raises `UnauthorizedUserException`, and
the service-call trace is empty, so no mutating service call is made and
the group is left unmodified: the facilitator check precedes every
mutation. -/
theorem put_by_non_facilitator_rejected_without_mutation (env : Env)
    (learner_group_id : String) (p : LearnerGroupPayload)
    (h : env.is_user_facilitator env.user_id learner_group_id = false) :
    learnerGroupPut env learner_group_id p =
      (.error (.unauthorizedUser
        "You are not a facilitator of this learner group."), []) := by
  simp [learnerGroupPut, h]

/-- C4 witness: in `envBase` the caller facilitates nothing, and the PUT
is rejected with an empty trace. -/
theorem put_by_non_facilitator_rejected_without_mutation_witness :
    learnerGroupPut envBase "g1" payloadW =
      (.error (.unauthorizedUser
        "You are not a facilitator of this learner group."), []) :=
  put_by_non_facilitator_rejected_without_mutation envBase "g1" payloadW rfl

/-- C2 counterexample: on a group id that resolves to no group, the
progress handler fails with `InvalidInputException`, which is not the
framework's not-found error, so the claim that it fails with a NotFound
error is false at this input. -/
theorem progress_missing_group_error_kind_cex :
    (studentProgressGet envBase "g1" ["alice"]).1 =
      .error (.invalidInput "No such learner group exists.") ∧
    HandlerError.isNotFound
      (.invalidInput "No such learner group exists.") = false := by
  exact ⟨rfl, rfl⟩

/-- C2 (amended): a GET to `LearnerGroupStudentProgressHandler` whose
group id does not resolve to an existing group fails with an
`InvalidInputException` (message `No such learner group exists.`), and
the trace is empty: no progress service is called. -/
theorem progress_missing_group_invalid_input (env : Env)
    (learner_group_id : String) (student_usernames : List String)
    (h : env.get_learner_group_by_id learner_group_id = none) :
    studentProgressGet env learner_group_id student_usernames =
      (.error (.invalidInput "No such learner group exists."), []) := by
  simp [studentProgressGet, h]

/-- C2 witness: the amended statement at a concrete environment with no
groups. -/
theorem progress_missing_group_invalid_input_witness :
    studentProgressGet envBase "g2" ["alice", "bob"] =
      (.error (.invalidInput "No such learner group exists."), []) :=
  progress_missing_group_invalid_input envBase "g2" ["alice", "bob"] rfl

/-- C7: `get_package_file_contents` raises `FileNotFoundError` iff the
direct read raises `FileNotFoundError` and the packaged-resource read
yields no data; if the direct read fails but the packaged-resource read
yields data, the data is returned decoded as UTF-8 instead. -/
theorem get_package_file_contents_fallback (fs : FsEnv)
    (package filepath : String) :
    (get_package_file_contents fs package filepath = .error .fileNotFound ↔
      fs.direct_read package filepath = .error .fileNotFound ∧
        fs.get_data package filepath = none) ∧
    (∀ d, fs.direct_read package filepath = .error .fileNotFound →
      fs.get_data package filepath = some d →
      get_package_file_contents fs package filepath =
        .ok (fs.decode_utf8 d)) := by
  constructor
  · constructor
    · intro h
      cases hd : fs.direct_read package filepath with
      | ok s => simp [get_package_file_contents, hd] at h
      | error e =>
        cases e
        cases hg : fs.get_data package filepath with
        | none => exact ⟨rfl, rfl⟩
        | some d => simp [get_package_file_contents, hd, hg] at h
    · rintro ⟨h1, h2⟩
      simp [get_package_file_contents, h1, h2]
  · intro d h1 h2
    simp [get_package_file_contents, h1, h2]

/-- C7 witness: with the direct read failing and packaged bytes
`[104, 105]` present, the contents decode to `"hi"`. -/
theorem get_package_file_contents_fallback_witness :
    get_package_file_contents fsW "assets" "constants.ts" = .ok "hi" :=
  (get_package_file_contents_fallback fsW "assets" "constants.ts").2
    [104, 105] rfl rfl

/-- C8: for a `Constants` table built from a parsed asset object,
attribute access and item access agree: a top-level key of the embedded
JSON object resolves to its value under both, an absent key fails both
lookups, and setting an attribute is the same as setting the item. -/
theorem constants_attr_item_agree (items : List (String × JsonVal))
    (k : String) :
    (k ∈ items.map Prod.fst →
      ∃ v, Constants.getattr (Constants.ofParsedObj items) k = some v ∧
        Constants.getitem (Constants.ofParsedObj items) k = some v) ∧
    (k ∉ items.map Prod.fst →
      Constants.getattr (Constants.ofParsedObj items) k = none ∧
      Constants.getitem (Constants.ofParsedObj items) k = none) ∧
    (∀ v, Constants.setattr (Constants.ofParsedObj items) k v =
      Constants.setitem (Constants.ofParsedObj items) k v) := by
  refine ⟨?_, ?_, fun v => rfl⟩
  · intro hk
    obtain ⟨p, hp, hpk⟩ := List.mem_map.1 hk
    have hs : (items.find? (fun q => q.1 = k)).isSome :=
      List.find?_isSome.2 ⟨p, hp, by simp [hpk]⟩
    obtain ⟨q, hq⟩ := Option.isSome_iff_exists.1 hs
    refine ⟨q.2, ?_, ?_⟩
    · simp [Constants.getattr, Constants.getitem, Constants.ofParsedObj, hq]
    · simp [Constants.getitem, Constants.ofParsedObj, hq]
  · intro hk
    have hnone : items.find? (fun q => q.1 = k) = none := by
      refine List.find?_eq_none.2 ?_
      intro x hx hxk
      exact hk (List.mem_map.2 ⟨x, hx, by simpa using hxk⟩)
    constructor
    · simp [Constants.getattr, Constants.getitem, Constants.ofParsedObj, hnone]
    · simp [Constants.getitem, Constants.ofParsedObj, hnone]

/-- C8 witness: a two-key asset, looked up at the key `"MAX"`. -/
theorem constants_attr_item_agree_witness :
    ∃ v, Constants.getattr
        (Constants.ofParsedObj
          [("MAX", JsonVal.num 50), ("NAME", JsonVal.str "oppia")])
        "MAX" = some v ∧
      Constants.getitem
        (Constants.ofParsedObj
          [("MAX", JsonVal.num 50), ("NAME", JsonVal.str "oppia")])
        "MAX" = some v :=
  (constants_attr_item_agree
      [("MAX", JsonVal.num 50), ("NAME", JsonVal.str "oppia")] "MAX").1
    (by simp)

/-- C5: `LearnerGroupSearchStudentHandler.get` never raises: every
request renders a success response; a nonexistent username yields the
`does not exist` message in the `error` field, searching one's own
username yields the `cannot invite yourself` message, an invalid
invitation surfaces the service's error message, and only a valid
invitation yields an empty `error` field. -/
theorem search_student_failures_in_band (env : Env)
    (username learner_group_id : String) :
    (∃ r, searchStudentGet env username learner_group_id = .ok r) ∧
    (env.get_user_settings_from_username username = none →
      searchStudentGet env username learner_group_id =
        .ok { username := username, profile_picture_data_url := ""
              error := "User with username " ++ username ++
                " does not exist." }) ∧
    (∀ us, env.get_user_settings_from_username username = some us →
      username = env.username →
      searchStudentGet env username learner_group_id =
        .ok { username := us.username, profile_picture_data_url := ""
              error := "You cannot invite yourself to the group" }) ∧
    (∀ us e, env.get_user_settings_from_username username = some us →
      env.username.toLower ≠ username.toLower →
      env.can_user_be_invited us.user_id us.username learner_group_id =
        (false, e) →
      searchStudentGet env username learner_group_id =
        .ok { username := us.username, profile_picture_data_url := ""
              error := e }) ∧
    (∀ us e, env.get_user_settings_from_username username = some us →
      env.username.toLower ≠ username.toLower →
      env.can_user_be_invited us.user_id us.username learner_group_id =
        (true, e) →
      searchStudentGet env username learner_group_id =
        .ok { username := us.username
              profile_picture_data_url := us.profile_picture_data_url
              error := "" }) := by
  refine ⟨?_, ?_, ?_, ?_, ?_⟩
  · cases h : env.get_user_settings_from_username username with
    | none =>
      exact ⟨{ username := username, profile_picture_data_url := ""
               error := "User with username " ++ username ++
                 " does not exist." },
        by simp [searchStudentGet, h]⟩
    | some us =>
      by_cases he : env.username.toLower = username.toLower
      · exact ⟨{ username := us.username, profile_picture_data_url := ""
                 error := "You cannot invite yourself to the group" },
          by simp [searchStudentGet, h, he]⟩
      · cases hinv : env.can_user_be_invited us.user_id us.username
            learner_group_id with
        | mk valid err =>
          cases valid
          · exact ⟨{ username := us.username
                     profile_picture_data_url := ""
                     error := err },
              by simp [searchStudentGet, h, he, hinv]⟩
          · exact ⟨{ username := us.username
                     profile_picture_data_url := us.profile_picture_data_url
                     error := "" },
              by simp [searchStudentGet, h, he, hinv]⟩
  · intro h
    simp [searchStudentGet, h]
  · intro us h he
    subst he
    simp [searchStudentGet, h]
  · intro us e h he hinv
    simp [searchStudentGet, h, he, hinv]
  · intro us e h he hinv
    simp [searchStudentGet, h, he, hinv]

/-- C5 witness: searching a nonexistent username in a concrete
environment yields a success body carrying the error message. -/
theorem search_student_failures_in_band_witness :
    searchStudentGet envUsers "ghost" "g1" =
      .ok { username := "ghost", profile_picture_data_url := ""
            error := "User with username ghost does not exist." } :=
  (search_student_failures_in_band envUsers "ghost" "g1").2.1 rfl

/-- C9: every create and every update passes exactly the one-element
list holding the calling user's id as the facilitator-user-ids argument
of the mutating service call; consequently, if the update service
replaces the stored facilitator list with that argument, a successful
PUT leaves the group with the caller as sole facilitator, whatever
facilitators it had before. -/
theorem mutations_pass_caller_as_sole_facilitator (env : Env)
    (p : LearnerGroupPayload) (learner_group_id : String) :
    (∀ c ∈ (createLearnerGroupPost env p).2, ∀ f,
      facilitatorArg c = some f → f = [env.user_id]) ∧
    (∀ c ∈ (learnerGroupPut env learner_group_id p).2, ∀ f,
      facilitatorArg c = some f → f = [env.user_id]) ∧
    ((∀ gid t d f s inv sp st,
        (env.update_learner_group gid t d f s inv sp st).facilitator_user_ids
          = f) →
      ∀ r, (learnerGroupPut env learner_group_id p).1 = .ok r →
        r.facilitator_usernames = env.get_usernames [env.user_id]) := by
  refine ⟨?_, ?_, ?_⟩
  · intro c hc f hf
    simp [createLearnerGroupPost] at hc
    subst hc
    simp [facilitatorArg] at hf
    exact hf.symm
  · intro c hc f hf
    by_cases hfac : env.is_user_facilitator env.user_id learner_group_id
    · simp [learnerGroupPut, hfac] at hc
      subst hc
      simp [facilitatorArg] at hf
      exact hf.symm
    · simp [learnerGroupPut, hfac] at hc
  · intro hstore r hr
    by_cases hfac : env.is_user_facilitator env.user_id learner_group_id
    · simp [learnerGroupPut, hfac] at hr
      rw [← hr]
      simp [renderGroup, hstore]
    · simp [learnerGroupPut, hfac] at hr

/-- C9 witness: a facilitator's PUT in a verbatim-persisting environment
leaves the caller as the sole facilitator of the rendered group. -/
theorem mutations_pass_caller_as_sole_facilitator_witness :
    ({ id := "g1", title := "Group A", description := "A group"
       facilitator_usernames := ["facil"], student_usernames := ["alice"]
       invited_student_usernames := ["bob"]
       subtopic_page_ids := ["topic1:1"]
       story_ids := ["story1"] } : GroupResponse).facilitator_usernames =
      envFacil.get_usernames [envFacil.user_id] :=
  (mutations_pass_caller_as_sole_facilitator envFacil payloadW "g1").2.2
    (fun _ _ _ _ _ _ _ _ => rfl) _ (by rfl)

/-- C1 counterexample: in a concrete environment the create handler
succeeds, but the rendered `student_usernames` field is empty while the
submitted `student_usernames` round-tripped through id resolution and
back is `["alice"]`: the create handler never reads the submitted
`student_usernames`. -/
theorem create_student_usernames_roundtrip_cex :
    (createLearnerGroupPost envBase payloadW).1 =
      .ok { id := "groupNew", title := "Group A", description := "A group"
            facilitator_usernames := ["facil"], student_usernames := []
            invited_student_usernames := ["bob"]
            subtopic_page_ids := ["topic1:1"], story_ids := ["story1"] } ∧
    ([] : List String) ≠
      envBase.get_usernames
        (envBase.get_multi_user_ids_from_usernames
          payloadW.student_usernames) := by
  refine ⟨by rfl, by decide⟩

/-- C1 (amended): for every successful POST to
`CreateLearnerGroupHandler`, provided the domain service persists the
passed invited-student ids, the rendered `invited_student_usernames`
field equals the submitted `invited_student_usernames` round-tripped
through username-to-id resolution and back; in particular when the
round-trip is the identity on the submitted list, the response returns
the submitted list itself.  The submitted `student_usernames` field is
ignored by the create handler. -/
theorem create_invited_usernames_roundtrip (env : Env)
    (p : LearnerGroupPayload)
    (hstore : ∀ gid t d f inv sp st,
      (env.create_learner_group gid t d f inv sp st).invited_student_user_ids
        = inv) :
    ∀ r, (createLearnerGroupPost env p).1 = .ok r →
      r.invited_student_usernames =
        env.get_usernames
          (env.get_multi_user_ids_from_usernames
            p.invited_student_usernames) ∧
      (env.get_usernames
          (env.get_multi_user_ids_from_usernames p.invited_student_usernames)
            = p.invited_student_usernames →
        r.invited_student_usernames = p.invited_student_usernames) := by
  intro r hr
  simp [createLearnerGroupPost] at hr
  constructor
  · rw [← hr]
    simp [renderGroup, hstore]
  · intro hround
    rw [← hr]
    simp [renderGroup, hstore, hround]

/-- C1 witness: the amended round-trip at a concrete environment where
ids are the usernames tagged with `id_`. -/
theorem create_invited_usernames_roundtrip_witness :
    ({ id := "groupNew", title := "Group A", description := "A group"
       facilitator_usernames := ["facil"], student_usernames := []
       invited_student_usernames := ["bob"]
       subtopic_page_ids := ["topic1:1"]
       story_ids := ["story1"] } : GroupResponse).invited_student_usernames =
      envBase.get_usernames
        (envBase.get_multi_user_ids_from_usernames
          payloadW.invited_student_usernames) :=
  ((create_invited_usernames_roundtrip envBase payloadW
      (fun _ _ _ _ _ _ _ => rfl)) _ (by rfl)).1

/-! ## Helper lemmas for the progress-view loops -/

theorem studentsWithSharingOn_isSome (us : List String) (bs : List Bool)
    (h : us.length ≤ bs.length) :
    ∃ r, studentsWithSharingOn us bs = some r := by
  induction us generalizing bs with
  | nil => exact ⟨[], rfl⟩
  | cons u us ih =>
    cases bs with
    | nil => simp at h
    | cons b bs =>
      obtain ⟨r, hr⟩ := ih bs (by simpa using h)
      exact ⟨if b then u :: r else r, by simp [studentsWithSharingOn, hr]⟩

theorem allStudentsProgress_isSome (sp tp : String → List String) :
    ∀ (us ns : List String) (bs : List Bool),
      us.length ≤ ns.length → us.length ≤ bs.length →
      ∃ l, allStudentsProgress us ns bs sp tp = some l := by
  intro us
  induction us with
  | nil => exact fun ns bs _ _ => ⟨[], rfl⟩
  | cons u us ih =>
    intro ns bs h1 h2
    cases ns with
    | nil => simp at h1
    | cons n ns =>
      cases bs with
      | nil => simp at h2
      | cons b bs =>
        obtain ⟨l, hl⟩ := ih ns bs (by simpa using h1) (by simpa using h2)
        refine ⟨(if b then
            { username := n, progress_sharing_is_turned_on := true
              stories_progress := sp u, subtopic_pages_progress := tp u }
          else
            { username := n, progress_sharing_is_turned_on := false
              stories_progress := [], subtopic_pages_progress := [] }) :: l,
          ?_⟩
        simp [allStudentsProgress, hl]

theorem allStudentsProgress_length (sp tp : String → List String) :
    ∀ (us ns : List String) (bs : List Bool) (l : List StudentProgress),
      allStudentsProgress us ns bs sp tp = some l → l.length = us.length := by
  intro us
  induction us with
  | nil =>
    intro ns bs l h
    simp [allStudentsProgress] at h
    subst h
    rfl
  | cons u us ih =>
    intro ns bs l h
    cases ns with
    | nil => simp [allStudentsProgress] at h
    | cons n ns =>
      cases bs with
      | nil => simp [allStudentsProgress] at h
      | cons b bs =>
        simp [allStudentsProgress] at h
        obtain ⟨l', hl', rfl⟩ := h
        simp [ih ns bs l' hl']

theorem allStudentsProgress_getElem (sp tp : String → List String) :
    ∀ (us ns : List String) (bs : List Bool) (l : List StudentProgress),
      allStudentsProgress us ns bs sp tp = some l →
      ∀ (i : Nat) (u n : String) (b : Bool),
        us[i]? = some u → ns[i]? = some n → bs[i]? = some b →
        l[i]? = some (if b then
          { username := n, progress_sharing_is_turned_on := true
            stories_progress := sp u, subtopic_pages_progress := tp u }
        else
          { username := n, progress_sharing_is_turned_on := false
            stories_progress := [], subtopic_pages_progress := [] }) := by
  intro us
  induction us with
  | nil =>
    intro ns bs l h i u n b hu
    simp at hu
  | cons u0 us ih =>
    intro ns bs l h i u n b hu hn hb
    cases ns with
    | nil => simp [allStudentsProgress] at h
    | cons n0 ns =>
      cases bs with
      | nil => simp [allStudentsProgress] at h
      | cons b0 bs =>
        simp [allStudentsProgress] at h
        obtain ⟨l', hl', rfl⟩ := h
        cases i with
        | zero =>
          simp at hu hn hb
          subst hu
          subst hn
          subst hb
          simp
        | succ i =>
          simp only [List.getElem?_cons_succ] at hu hn hb
          simpa using ih ns bs l' hl' i u n b hu hn hb

/-- C3: on an existing group, every requested student whose
progress-sharing permission is false appears in `students_progress` with
the flag false and empty `stories_progress` and
`subtopic_pages_progress`, whatever progress the services hold; a
student with sharing enabled receives the story and subtopic progress
the two services return for their user id. -/
theorem progress_disabled_students_get_empty_lists (env : Env)
    (learner_group_id : String) (student_usernames : List String)
    (g : LearnerGroup)
    (hg : env.get_learner_group_by_id learner_group_id = some g)
    (h1 : (env.get_multi_user_ids_from_usernames student_usernames).length =
      student_usernames.length)
    (h2 : (env.can_multi_students_share_progress
        (env.get_multi_user_ids_from_usernames student_usernames)
        learner_group_id).length = student_usernames.length) :
    ∃ (resp : ProgressResponse) (son : List String),
      studentsWithSharingOn
          (env.get_multi_user_ids_from_usernames student_usernames)
          (env.can_multi_students_share_progress
            (env.get_multi_user_ids_from_usernames student_usernames)
            learner_group_id) = some son ∧
      (studentProgressGet env learner_group_id student_usernames).1 =
        .ok resp ∧
      ∀ (i : Nat) (u : String), student_usernames[i]? = some u →
        ((env.can_multi_students_share_progress
            (env.get_multi_user_ids_from_usernames student_usernames)
            learner_group_id)[i]? = some false →
          resp.students_progress[i]? = some
            { username := u, progress_sharing_is_turned_on := false
              stories_progress := [], subtopic_pages_progress := [] }) ∧
        (∀ uid : String, (env.can_multi_students_share_progress
            (env.get_multi_user_ids_from_usernames student_usernames)
            learner_group_id)[i]? = some true →
          (env.get_multi_user_ids_from_usernames
            student_usernames)[i]? = some uid →
          resp.students_progress[i]? = some
            { username := u, progress_sharing_is_turned_on := true
              stories_progress :=
                env.get_multi_users_progress_in_stories son g.story_ids uid
              subtopic_pages_progress :=
                env.get_multi_users_subtopic_pages_progress son
                  g.subtopic_page_ids uid }) := by
  obtain ⟨son, hson⟩ := studentsWithSharingOn_isSome
    (env.get_multi_user_ids_from_usernames student_usernames)
    (env.can_multi_students_share_progress
      (env.get_multi_user_ids_from_usernames student_usernames)
      learner_group_id)
    (by omega)
  obtain ⟨l, hl⟩ := allStudentsProgress_isSome
    (env.get_multi_users_progress_in_stories son g.story_ids)
    (env.get_multi_users_subtopic_pages_progress son g.subtopic_page_ids)
    (env.get_multi_user_ids_from_usernames student_usernames)
    student_usernames
    (env.can_multi_students_share_progress
      (env.get_multi_user_ids_from_usernames student_usernames)
      learner_group_id)
    (by omega) (by omega)
  refine ⟨{ students_progress := l }, son, hson, ?_, ?_⟩
  · simp [studentProgressGet, hg, hson, hl]
  · intro i u hu
    have hlen : i < student_usernames.length := by
      obtain ⟨h, -⟩ := List.getElem?_eq_some.1 hu
      exact h
    have hilen : i <
        (env.get_multi_user_ids_from_usernames student_usernames).length := by
      omega
    have huid := List.getElem?_eq_getElem hilen
    constructor
    · intro hfalse
      have := allStudentsProgress_getElem
        (env.get_multi_users_progress_in_stories son g.story_ids)
        (env.get_multi_users_subtopic_pages_progress son g.subtopic_page_ids)
        (env.get_multi_user_ids_from_usernames student_usernames)
        student_usernames
        (env.can_multi_students_share_progress
          (env.get_multi_user_ids_from_usernames student_usernames)
          learner_group_id)
        l hl i _ u false huid hu hfalse
      simpa using this
    · intro uid htrue huid'
      have := allStudentsProgress_getElem
        (env.get_multi_users_progress_in_stories son g.story_ids)
        (env.get_multi_users_subtopic_pages_progress son g.subtopic_page_ids)
        (env.get_multi_user_ids_from_usernames student_usernames)
        student_usernames
        (env.can_multi_students_share_progress
          (env.get_multi_user_ids_from_usernames student_usernames)
          learner_group_id)
        l hl i uid u true huid' hu htrue
      simpa using this

/-- C3 witness: in `envProg`, `alice` has sharing disabled and gets the
placeholder record although the services hold progress for her, while
`bob` receives the services' progress for `id_bob`. -/
theorem progress_disabled_students_get_empty_lists_witness :
    ∃ (resp : ProgressResponse) (son : List String),
      studentsWithSharingOn
          (envProg.get_multi_user_ids_from_usernames ["alice", "bob"])
          (envProg.can_multi_students_share_progress
            (envProg.get_multi_user_ids_from_usernames ["alice", "bob"])
            "g1") = some son ∧
      (studentProgressGet envProg "g1" ["alice", "bob"]).1 = .ok resp ∧
      ∀ (i : Nat) (u : String), (["alice", "bob"] : List String)[i]? = some u →
        ((envProg.can_multi_students_share_progress
            (envProg.get_multi_user_ids_from_usernames ["alice", "bob"])
            "g1")[i]? = some false →
          resp.students_progress[i]? = some
            { username := u, progress_sharing_is_turned_on := false
              stories_progress := [], subtopic_pages_progress := [] }) ∧
        (∀ uid : String, (envProg.can_multi_students_share_progress
            (envProg.get_multi_user_ids_from_usernames ["alice", "bob"])
            "g1")[i]? = some true →
          (envProg.get_multi_user_ids_from_usernames
            ["alice", "bob"])[i]? = some uid →
          resp.students_progress[i]? = some
            { username := u, progress_sharing_is_turned_on := true
              stories_progress :=
                envProg.get_multi_users_progress_in_stories son
                  groupW.story_ids uid
              subtopic_pages_progress :=
                envProg.get_multi_users_subtopic_pages_progress son
                  groupW.subtopic_page_ids uid }) :=
  progress_disabled_students_get_empty_lists envProg "g1" ["alice", "bob"]
    groupW rfl rfl rfl

/-- C10: for every successful progress GET (group exists and the
resolver and permission services return lists aligned with the request),
`students_progress` has exactly one record per requested username, in
request order: the record at position `i` carries the username at
position `i` of the request and the sharing flag at position `i` of the
permission result. -/
theorem progress_records_aligned_with_request (env : Env)
    (learner_group_id : String) (student_usernames : List String)
    (g : LearnerGroup)
    (hg : env.get_learner_group_by_id learner_group_id = some g)
    (h1 : (env.get_multi_user_ids_from_usernames student_usernames).length =
      student_usernames.length)
    (h2 : (env.can_multi_students_share_progress
        (env.get_multi_user_ids_from_usernames student_usernames)
        learner_group_id).length = student_usernames.length) :
    ∃ resp : ProgressResponse,
      (studentProgressGet env learner_group_id student_usernames).1 =
        .ok resp ∧
      resp.students_progress.length = student_usernames.length ∧
      ∀ (i : Nat) (u : String) (b : Bool), student_usernames[i]? = some u →
        (env.can_multi_students_share_progress
          (env.get_multi_user_ids_from_usernames student_usernames)
          learner_group_id)[i]? = some b →
        ∃ entry : StudentProgress, resp.students_progress[i]? = some entry ∧
          entry.username = u ∧ entry.progress_sharing_is_turned_on = b := by
  obtain ⟨son, hson⟩ := studentsWithSharingOn_isSome
    (env.get_multi_user_ids_from_usernames student_usernames)
    (env.can_multi_students_share_progress
      (env.get_multi_user_ids_from_usernames student_usernames)
      learner_group_id)
    (by omega)
  obtain ⟨l, hl⟩ := allStudentsProgress_isSome
    (env.get_multi_users_progress_in_stories son g.story_ids)
    (env.get_multi_users_subtopic_pages_progress son g.subtopic_page_ids)
    (env.get_multi_user_ids_from_usernames student_usernames)
    student_usernames
    (env.can_multi_students_share_progress
      (env.get_multi_user_ids_from_usernames student_usernames)
      learner_group_id)
    (by omega) (by omega)
  refine ⟨{ students_progress := l }, ?_, ?_, ?_⟩
  · simp [studentProgressGet, hg, hson, hl]
  · have := allStudentsProgress_length
      (env.get_multi_users_progress_in_stories son g.story_ids)
      (env.get_multi_users_subtopic_pages_progress son g.subtopic_page_ids)
      (env.get_multi_user_ids_from_usernames student_usernames)
      student_usernames
      (env.can_multi_students_share_progress
        (env.get_multi_user_ids_from_usernames student_usernames)
        learner_group_id)
      l hl
    simpa [h1] using this
  · intro i u b hu hb
    have hlen : i < student_usernames.length := by
      obtain ⟨h, -⟩ := List.getElem?_eq_some.1 hu
      exact h
    have hilen : i <
        (env.get_multi_user_ids_from_usernames student_usernames).length := by
      omega
    have huid := List.getElem?_eq_getElem hilen
    have := allStudentsProgress_getElem
      (env.get_multi_users_progress_in_stories son g.story_ids)
      (env.get_multi_users_subtopic_pages_progress son g.subtopic_page_ids)
      (env.get_multi_user_ids_from_usernames student_usernames)
      student_usernames
      (env.can_multi_students_share_progress
        (env.get_multi_user_ids_from_usernames student_usernames)
        learner_group_id)
      l hl i _ u b huid hu hb
    refine ⟨_, this, ?_, ?_⟩
    · cases b <;> simp
    · cases b <;> simp

/-- C10 witness: the alignment statement at `envProg` with two requested
usernames. -/
theorem progress_records_aligned_with_request_witness :
    ∃ resp : ProgressResponse,
      (studentProgressGet envProg "g1" ["alice", "bob"]).1 = .ok resp ∧
      resp.students_progress.length =
        (["alice", "bob"] : List String).length ∧
      ∀ (i : Nat) (u : String) (b : Bool), (["alice", "bob"] : List String)[i]? = some u →
        (envProg.can_multi_students_share_progress
          (envProg.get_multi_user_ids_from_usernames ["alice", "bob"])
          "g1")[i]? = some b →
        ∃ entry : StudentProgress, resp.students_progress[i]? = some entry ∧
          entry.username = u ∧ entry.progress_sharing_is_turned_on = b :=
  progress_records_aligned_with_request envProg "g1" ["alice", "bob"]
    groupW rfl rfl rfl

/-! ## Helper lemmas for the JSON-extraction heuristic -/

theorem findBraceNl_lt_length :
    ∀ (l : List Char) (i : Nat), findBraceNl l = some i → i < l.length := by
  intro l
  induction l with
  | nil => intro i h; simp [findBraceNl] at h
  | cons c rest ih =>
    intro i h
    simp only [findBraceNl] at h
    split at h
    · simp at h
      subst h
      simp
    · simp only [Option.map_eq_some'] at h
      obtain ⟨a, ha, rfl⟩ := h
      have := ih a ha
      simp only [List.length_cons]
      omega

theorem rfindBrace_lt_length :
    ∀ (l : List Char) (j : Nat), rfindBrace l = some j → j < l.length := by
  intro l
  induction l with
  | nil => intro j h; simp [rfindBrace] at h
  | cons c rest ih =>
    intro j h
    cases hr : rfindBrace rest with
    | some i =>
      simp only [rfindBrace, hr] at h
      simp at h
      subst h
      have := ih i hr
      simp only [List.length_cons]
      omega
    | none =>
      simp only [rfindBrace, hr] at h
      split at h
      · simp at h
        subst h
        simp
      · simp at h

theorem rfindBrace_getElem :
    ∀ (l : List Char) (j : Nat), rfindBrace l = some j →
      l[j]? = some '}' := by
  intro l
  induction l with
  | nil => intro j h; simp [rfindBrace] at h
  | cons c rest ih =>
    intro j h
    cases hr : rfindBrace rest with
    | some i =>
      simp only [rfindBrace, hr] at h
      simp at h
      subst h
      simpa using ih i hr
    | none =>
      simp only [rfindBrace, hr] at h
      split at h
      · simp at h
        subst h
        simp_all
      · simp at h

theorem findBraceNl_of_first (l : List Char) (i : Nat)
    (h : isFirstBraceNlAt l i) : findBraceNl l = some i := by
  induction l generalizing i with
  | nil =>
    obtain ⟨h1, -, -⟩ := h
    simp at h1
  | cons c rest ih =>
    obtain ⟨h1, h2, hmin⟩ := h
    by_cases hc : c = '{' ∧ rest.head? = some '\n'
    · have hi0 : i = 0 := by
        by_contra hne
        refine hmin 0 (Nat.pos_of_ne_zero hne) ⟨?_, ?_⟩
        · simpa using hc.1
        · simpa [List.head?_eq_getElem?] using hc.2
      subst hi0
      simp [findBraceNl, hc]
    · cases i with
      | zero =>
        exfalso
        apply hc
        constructor
        · simpa using h1
        · simpa [List.head?_eq_getElem?] using h2
      | succ i =>
        have hrest : isFirstBraceNlAt rest i := by
          refine ⟨by simpa using h1, by simpa using h2, ?_⟩
          intro k hk hbad
          exact hmin (k + 1) (by omega)
            ⟨by simpa using hbad.1, by simpa using hbad.2⟩
        have := ih i hrest
        simp [findBraceNl, hc, this]

theorem rfindBrace_of_last (l : List Char) (j : Nat)
    (h : isLastBraceAt l j) : rfindBrace l = some j := by
  induction l generalizing j with
  | nil =>
    obtain ⟨h1, -⟩ := h
    simp at h1
  | cons c rest ih =>
    obtain ⟨h1, hmax⟩ := h
    cases j with
    | zero =>
      have hc : c = '}' := by simpa using h1
      have hrest : rfindBrace rest = none := by
        cases hr : rfindBrace rest with
        | none => rfl
        | some i =>
          exfalso
          have hlt := rfindBrace_lt_length rest i hr
          have := rfindBrace_getElem rest i hr
          exact hmax (i + 1) (by simp; omega) (by omega) (by simpa using this)
      simp [rfindBrace, hrest, hc]
    | succ j =>
      have hrest : isLastBraceAt rest j := by
        refine ⟨by simpa using h1, ?_⟩
        intro k hklen hk
        simpa using hmax (k + 1) (by simp; omega) (by omega)
      have := ih j hrest
      simp [rfindBrace, this]

/-- C6: for every input text, `parse_json_from_ts` first removes every
line-comment suffix matching the two-space-indented `//` pattern
(`remove_comments`), and the string it hands to `json.loads` is exactly
the substring of the comment-stripped text that starts at the first
occurrence of `'{'` immediately followed by a newline and ends at, and
includes, the last `'}'` in that text. -/
theorem parse_json_from_ts_extracts_described_substring
    (loads : List Char → Option JsonVal) (ts : List Char) (i j : Nat)
    (hi : isFirstBraceNlAt (remove_comments ts) i)
    (hj : isLastBraceAt (remove_comments ts) j)
    (_hij : i ≤ j) :
    parse_json_from_ts loads ts =
      loads (((remove_comments ts).drop i).take (j + 1 - i)) := by
  have hfind : findBraceNl (remove_comments ts) = some i :=
    findBraceNl_of_first _ _ hi
  have hrfind : rfindBrace (remove_comments ts) = some j :=
    rfindBrace_of_last _ _ hj
  have hilt : i < (remove_comments ts).length :=
    findBraceNl_lt_length _ _ hfind
  have hjlt : j < (remove_comments ts).length :=
    rfindBrace_lt_length _ _ hrfind
  unfold parse_json_from_ts parse_json_from_ts_arg
  congr 1
  simp only [pyFindBraceNl, hfind, pyRfindBrace, hrfind, pySlice]
  have ha : pySliceIndex (remove_comments ts).length ((i : Nat) : Int) = i := by
    simp only [pySliceIndex]
    split
    · omega
    · simp only [Int.toNat_natCast]
      omega
  have hb : pySliceIndex (remove_comments ts).length
      (((j : Nat) : Int) + 1) = j + 1 := by
    simp only [pySliceIndex]
    split
    · omega
    · have : (((j : Nat) : Int) + 1).toNat = j + 1 := by omega
      rw [this]
      omega
  rw [ha, hb]

/-- C6 witness: on a concrete TS asset the comment line is stripped and
the substring from the first brace-newline to the last brace, inclusive,
is handed to the loader. -/
theorem parse_json_from_ts_extracts_described_substring_witness :
    parse_json_from_ts loadsW tsW =
      loadsW (((remove_comments tsW).drop 7).take (16 + 1 - 7)) :=
  parse_json_from_ts_extracts_described_substring loadsW tsW 7 16
    (by decide) (by decide) (by decide)

end Oppia
